import Mathlib

/-!
Verification of the application lifecycle state machine and work queue of the
`emplaiyed` repository.

The embedding follows `src/emplaiyed/tracker/state_machine.py` and
`src/emplaiyed/work/queue.py`, together with the data model of
`src/emplaiyed/core/models.py` and the store operations of
`src/emplaiyed/core/database.py`.

Modelling conventions:
- The SQLite database is modelled as a `Store` of three tables (lists);
  `save_application` / `save_work_item` / `save_interaction` perform the
  `INSERT OR REPLACE` upsert of `database.py` by primary key `id`.
- `datetime.now()` and `uuid4()` are impure; each call site receives the
  produced value as an explicit parameter (`now…`, `newId`, …).
- Python exceptions become an error inductive `TrackerError`; functions
  return `Except TrackerError α × Store`, the second component being the
  database state after the call (mutations before a raise persist, exactly
  as they do against the real connection).
- `ValueError` raises are modelled by the constructor matching the raise
  site: `applicationNotFound` ("Application not found: …" in `transition`),
  `workItemNotFound` / `alreadyResolved` (the two guards of
  `complete_work_item` / `skip_work_item`) and `invalidStatusValue`
  (the `ApplicationStatus(str)` enum constructor call). `InvalidTransitionError`
  is `invalidTransition` and carries the fields its `__init__` stores.
-/

/-- The 18 values of `ApplicationStatus` in `core/models.py`. -/
inductive ApplicationStatus where
  | DISCOVERED
  | SCORED
  | OUTREACH_PENDING
  | OUTREACH_SENT
  | FOLLOW_UP_PENDING
  | FOLLOW_UP_1
  | FOLLOW_UP_2
  | RESPONSE_RECEIVED
  | INTERVIEW_SCHEDULED
  | INTERVIEW_COMPLETED
  | OFFER_RECEIVED
  | NEGOTIATION_PENDING
  | NEGOTIATING
  | ACCEPTANCE_PENDING
  | ACCEPTED
  | REJECTED
  | GHOSTED
  | PASSED
deriving DecidableEq, Repr, Fintype

namespace ApplicationStatus

/-- The `.value` string of each `ApplicationStatus` member (a `str` enum). -/
def value : ApplicationStatus → String
  | DISCOVERED => "DISCOVERED"
  | SCORED => "SCORED"
  | OUTREACH_PENDING => "OUTREACH_PENDING"
  | OUTREACH_SENT => "OUTREACH_SENT"
  | FOLLOW_UP_PENDING => "FOLLOW_UP_PENDING"
  | FOLLOW_UP_1 => "FOLLOW_UP_1"
  | FOLLOW_UP_2 => "FOLLOW_UP_2"
  | RESPONSE_RECEIVED => "RESPONSE_RECEIVED"
  | INTERVIEW_SCHEDULED => "INTERVIEW_SCHEDULED"
  | INTERVIEW_COMPLETED => "INTERVIEW_COMPLETED"
  | OFFER_RECEIVED => "OFFER_RECEIVED"
  | NEGOTIATION_PENDING => "NEGOTIATION_PENDING"
  | NEGOTIATING => "NEGOTIATING"
  | ACCEPTANCE_PENDING => "ACCEPTANCE_PENDING"
  | ACCEPTED => "ACCEPTED"
  | REJECTED => "REJECTED"
  | GHOSTED => "GHOSTED"
  | PASSED => "PASSED"

/-- All members, in declaration order. -/
def all : List ApplicationStatus :=
  [DISCOVERED, SCORED, OUTREACH_PENDING, OUTREACH_SENT, FOLLOW_UP_PENDING,
   FOLLOW_UP_1, FOLLOW_UP_2, RESPONSE_RECEIVED, INTERVIEW_SCHEDULED,
   INTERVIEW_COMPLETED, OFFER_RECEIVED, NEGOTIATION_PENDING, NEGOTIATING,
   ACCEPTANCE_PENDING, ACCEPTED, REJECTED, GHOSTED, PASSED]

/-- The enum constructor call `ApplicationStatus(v)`: returns the member
whose `.value` is `v`, `none` when `v` is not a member value (Python raises
`ValueError` there). -/
def ofValue (v : String) : Option ApplicationStatus :=
  all.find? (fun s => s.value == v)

end ApplicationStatus

/-- `WorkType` in `core/models.py`. -/
inductive WorkType where
  | OUTREACH
  | FOLLOW_UP
  | NEGOTIATE
  | ACCEPT
deriving DecidableEq, Repr

/-- `WorkStatus` in `core/models.py`. -/
inductive WorkStatus where
  | PENDING
  | COMPLETED
  | SKIPPED
deriving DecidableEq, Repr

/-- The `.value` string of each `WorkStatus` member. -/
def WorkStatus.value : WorkStatus → String
  | .PENDING => "PENDING"
  | .COMPLETED => "COMPLETED"
  | .SKIPPED => "SKIPPED"

/-- `InteractionType` in `core/models.py`. -/
inductive InteractionType where
  | EMAIL_SENT
  | EMAIL_RECEIVED
  | LINKEDIN_MESSAGE
  | PHONE_CALL
  | FORM_SUBMITTED
  | INTERVIEW
  | NOTE
  | FOLLOW_UP
deriving DecidableEq, Repr

/-- `Application` in `core/models.py`; `datetime` fields are opaque clock
readings modelled as `Nat`. -/
structure Application where
  id : String
  opportunity_id : String
  status : ApplicationStatus
  score : Option Int := none
  justification : Option String := none
  day_to_day : Option String := none
  why_it_fits : Option String := none
  created_at : Nat
  updated_at : Nat
deriving DecidableEq, Repr

/-- `WorkItem` in `core/models.py`. `target_status` and `previous_status`
are stored as plain strings, exactly like the Python model. -/
structure WorkItem where
  id : String
  application_id : String
  work_type : WorkType
  status : WorkStatus := WorkStatus.PENDING
  title : String
  instructions : String
  draft_content : Option String := none
  target_status : String
  previous_status : String
  created_at : Nat
  completed_at : Option Nat := none
deriving DecidableEq, Repr

/-- `Interaction` in `core/models.py`; `metadata` is a dict-or-None field the
queue never populates, modelled as an opaque `Option String`. -/
structure Interaction where
  id : String
  application_id : String
  type : InteractionType
  direction : String
  channel : String
  content : Option String := none
  metadata : Option String := none
  created_at : Nat
deriving DecidableEq, Repr

/-- The SQLite database: the three tables this core touches. -/
structure Store where
  applications : List Application
  work_items : List WorkItem
  interactions : List Interaction
deriving DecidableEq, Repr

/-- `INSERT OR REPLACE` by primary key: replace the row with the same key,
else append. -/
def upsertById {α : Type} (key : α → String) (a : α) : List α → List α
  | [] => [a]
  | b :: bs => if key b = key a then a :: bs else b :: upsertById key a bs

/-- `get_application` in `core/database.py`: `SELECT * WHERE id = ?`. -/
def get_application (store : Store) (id : String) : Option Application :=
  store.applications.find? (fun a => a.id == id)

/-- `save_application` in `core/database.py` (upsert by id). -/
def save_application (store : Store) (a : Application) : Store :=
  { store with applications := upsertById Application.id a store.applications }

/-- `get_work_item` in `core/database.py`. -/
def get_work_item (store : Store) (id : String) : Option WorkItem :=
  store.work_items.find? (fun w => w.id == id)

/-- `save_work_item` in `core/database.py` (upsert by id). -/
def save_work_item (store : Store) (w : WorkItem) : Store :=
  { store with work_items := upsertById WorkItem.id w store.work_items }

/-- `save_interaction` in `core/database.py` (upsert by id; ids are fresh
uuids in practice, making it an append). -/
def save_interaction (store : Store) (i : Interaction) : Store :=
  { store with interactions := upsertById Interaction.id i store.interactions }

/-- `VALID_TRANSITIONS` of `tracker/state_machine.py`: the adjacency map.
Python's values are sets; here each is the list of its distinct members
(the source's `FOLLOW_UP_PENDING` literal names `FOLLOW_UP_1` twice, which a
set collapses to one). -/
def VALID_TRANSITIONS : ApplicationStatus → List ApplicationStatus
  | .DISCOVERED => [.SCORED]
  | .SCORED => [.OUTREACH_PENDING, .OUTREACH_SENT, .PASSED]
  | .OUTREACH_PENDING => [.OUTREACH_SENT, .SCORED, .PASSED]
  | .OUTREACH_SENT => [.FOLLOW_UP_PENDING, .FOLLOW_UP_1, .RESPONSE_RECEIVED, .GHOSTED]
  | .FOLLOW_UP_PENDING => [.FOLLOW_UP_1, .FOLLOW_UP_2, .OUTREACH_SENT]
  | .FOLLOW_UP_1 => [.FOLLOW_UP_PENDING, .FOLLOW_UP_2, .RESPONSE_RECEIVED, .GHOSTED]
  | .FOLLOW_UP_2 => [.RESPONSE_RECEIVED, .GHOSTED]
  | .RESPONSE_RECEIVED => [.INTERVIEW_SCHEDULED, .REJECTED]
  | .INTERVIEW_SCHEDULED => [.INTERVIEW_COMPLETED, .REJECTED]
  | .INTERVIEW_COMPLETED => [.INTERVIEW_SCHEDULED, .OFFER_RECEIVED, .REJECTED]
  | .OFFER_RECEIVED =>
      [.NEGOTIATION_PENDING, .ACCEPTANCE_PENDING, .NEGOTIATING, .ACCEPTED, .REJECTED]
  | .NEGOTIATION_PENDING => [.NEGOTIATING, .OFFER_RECEIVED]
  | .NEGOTIATING => [.OFFER_RECEIVED, .ACCEPTANCE_PENDING, .ACCEPTED, .REJECTED]
  | .ACCEPTANCE_PENDING => [.ACCEPTED, .OFFER_RECEIVED, .NEGOTIATING]
  | .ACCEPTED => []
  | .REJECTED => []
  | .GHOSTED => [.RESPONSE_RECEIVED]
  | .PASSED => []

/-- `can_transition` of `tracker/state_machine.py`: membership in the
adjacency map entry. -/
def can_transition (current target : ApplicationStatus) : Bool :=
  (VALID_TRANSITIONS current).contains target

/-- The `valid_str` computed in `InvalidTransitionError.__init__`:
the member values of the legal target set, sorted, joined with a comma, or
the terminal-state marker when the set is empty. -/
def valid_str (current : ApplicationStatus) : String :=
  let valid := VALID_TRANSITIONS current
  if valid.isEmpty then "none (terminal state)"
  else String.intercalate ", "
    (List.insertionSort (· ≤ ·) (valid.map ApplicationStatus.value))

/-- The fields `InvalidTransitionError.__init__` stores on the exception. -/
structure InvalidTransitionData where
  current : ApplicationStatus
  target : ApplicationStatus
  application_id : Option String := none
deriving DecidableEq, Repr

/-- The exception message assembled by `InvalidTransitionError.__init__`. -/
def InvalidTransitionData.msg (e : InvalidTransitionData) : String :=
  let base := "Cannot transition from " ++ e.current.value ++ " to "
    ++ e.target.value ++ ". Valid transitions from " ++ e.current.value
    ++ ": " ++ valid_str e.current ++ "."
  match e.application_id with
  | some id => "Application " ++ id ++ ": " ++ base
  | none => base

/-- The exceptions this core raises, one constructor per raise site. -/
inductive TrackerError where
  | applicationNotFound (application_id : String)
  | invalidTransition (data : InvalidTransitionData)
  | workItemNotFound (work_item_id : String)
  | alreadyResolved (work_item_id : String) (status : WorkStatus)
  | invalidStatusValue (v : String)
deriving DecidableEq, Repr

/-- `transition` of `tracker/state_machine.py`. `now` is the value of its
`datetime.now()` call. Returns the result and the database state after the
call. -/
def transition (store : Store) (application_id : String)
    (target : ApplicationStatus) (now : Nat) :
    Except TrackerError Application × Store :=
  match get_application store application_id with
  | none => (Except.error (TrackerError.applicationNotFound application_id), store)
  | some app =>
    if can_transition app.status target then
      let updated := { app with status := target, updated_at := now }
      (Except.ok updated, save_application store updated)
    else
      (Except.error (TrackerError.invalidTransition
        ⟨app.status, target, some application_id⟩), store)

/-- `_interaction_type_for` of `work/queue.py`. -/
def interaction_type_for (work_type : WorkType) : InteractionType :=
  if work_type = WorkType.FOLLOW_UP then InteractionType.FOLLOW_UP
  else InteractionType.EMAIL_SENT

/-- `create_work_item` of `work/queue.py`. `newId` is the uuid the `WorkItem`
model default produces; `nowC` the `datetime.now()` of `created_at`;
`nowT` the one inside `transition`. -/
def create_work_item (store : Store) (application_id : String)
    (work_type : WorkType) (title instructions : String)
    (draft_content : Option String)
    (target_status previous_status pending_status : ApplicationStatus)
    (newId : String) (nowT nowC : Nat) :
    Except TrackerError WorkItem × Store :=
  match transition store application_id pending_status nowT with
  | (Except.error e, store1) => (Except.error e, store1)
  | (Except.ok _, store1) =>
    let item : WorkItem :=
      { id := newId
        application_id := application_id
        work_type := work_type
        status := WorkStatus.PENDING
        title := title
        instructions := instructions
        draft_content := draft_content
        target_status := target_status.value
        previous_status := previous_status.value
        created_at := nowC
        completed_at := none }
    (Except.ok item, save_work_item store1 item)

/-- `complete_work_item` of `work/queue.py`. `newInteractionId` is the uuid
of the `Interaction` default; `nowI`, `nowT`, `nowC` are its three
`datetime.now()` calls (interaction `created_at`, inside `transition`,
work-item `completed_at`). -/
def complete_work_item (store : Store) (work_item_id : String)
    (newInteractionId : String) (nowI nowT nowC : Nat) :
    Except TrackerError WorkItem × Store :=
  match get_work_item store work_item_id with
  | none => (Except.error (TrackerError.workItemNotFound work_item_id), store)
  | some item =>
    if item.status ≠ WorkStatus.PENDING then
      (Except.error (TrackerError.alreadyResolved work_item_id item.status), store)
    else
      match ApplicationStatus.ofValue item.target_status with
      | none => (Except.error (TrackerError.invalidStatusValue item.target_status), store)
      | some target =>
        let interaction : Interaction :=
          { id := newInteractionId
            application_id := item.application_id
            type := interaction_type_for item.work_type
            direction := "outbound"
            channel := "email"
            content := item.draft_content
            metadata := none
            created_at := nowI }
        let store1 := save_interaction store interaction
        match transition store1 item.application_id target nowT with
        | (Except.error e, store2) => (Except.error e, store2)
        | (Except.ok _, store2) =>
          let updated := { item with
            status := WorkStatus.COMPLETED, completed_at := some nowC }
          (Except.ok updated, save_work_item store2 updated)

/-- `skip_work_item` of `work/queue.py`. `nowT`, `nowC`: the `datetime.now()`
inside `transition` and the one for `completed_at`. -/
def skip_work_item (store : Store) (work_item_id : String)
    (nowT nowC : Nat) :
    Except TrackerError WorkItem × Store :=
  match get_work_item store work_item_id with
  | none => (Except.error (TrackerError.workItemNotFound work_item_id), store)
  | some item =>
    if item.status ≠ WorkStatus.PENDING then
      (Except.error (TrackerError.alreadyResolved work_item_id item.status), store)
    else
      match ApplicationStatus.ofValue item.previous_status with
      | none => (Except.error (TrackerError.invalidStatusValue item.previous_status), store)
      | some previous =>
        match transition store item.application_id previous nowT with
        | (Except.error e, store2) => (Except.error e, store2)
        | (Except.ok _, store2) =>
          let updated := { item with
            status := WorkStatus.SKIPPED, completed_at := some nowC }
          (Except.ok updated, save_work_item store2 updated)

/-! ### Store lemmas -/

theorem get_application_save_interaction (s : Store) (i : Interaction) (id : String) :
    get_application (save_interaction s i) id = get_application s id := rfl

theorem get_application_save_work_item (s : Store) (w : WorkItem) (id : String) :
    get_application (save_work_item s w) id = get_application s id := rfl

theorem get_work_item_save_application (s : Store) (a : Application) (id : String) :
    get_work_item (save_application s a) id = get_work_item s id := rfl

theorem get_work_item_save_interaction (s : Store) (i : Interaction) (id : String) :
    get_work_item (save_interaction s i) id = get_work_item s id := rfl

theorem interactions_save_application (s : Store) (a : Application) :
    (save_application s a).interactions = s.interactions := rfl

theorem interactions_save_work_item (s : Store) (w : WorkItem) :
    (save_work_item s w).interactions = s.interactions := rfl

theorem work_items_save_application (s : Store) (a : Application) :
    (save_application s a).work_items = s.work_items := rfl

theorem work_items_save_interaction (s : Store) (i : Interaction) :
    (save_interaction s i).work_items = s.work_items := rfl

theorem applications_save_work_item (s : Store) (w : WorkItem) :
    (save_work_item s w).applications = s.applications := rfl

theorem applications_save_interaction (s : Store) (i : Interaction) :
    (save_interaction s i).applications = s.applications := rfl

theorem key_of_find? {α : Type} (key : α → String) (v : String) (l : List α) (a : α)
    (h : l.find? (fun b => key b == v) = some a) : key a = v := by
  have := List.find?_some h
  simpa using this

theorem find?_upsertById {α : Type} (key : α → String) (a : α) :
    ∀ l : List α, (upsertById key a l).find? (fun b => key b == key a) = some a := by
  intro l
  induction l with
  | nil => simp [upsertById]
  | cons b bs ih =>
    by_cases h : key b = key a
    · simp [upsertById, h]
    · simp [upsertById, h, ih]

theorem upsertById_of_fresh {α : Type} (key : α → String) (a : α) :
    ∀ l : List α, (∀ b ∈ l, key b ≠ key a) → upsertById key a l = l ++ [a] := by
  intro l
  induction l with
  | nil => intro _; rfl
  | cons b bs ih =>
    intro hfresh
    have hb : key b ≠ key a := hfresh b (List.mem_cons_self b bs)
    simp [upsertById, hb, ih (fun c hc => hfresh c (List.mem_cons_of_mem b hc))]

theorem get_application_save_self (s : Store) (u : Application) :
    get_application (save_application s u) u.id = some u := by
  simpa [get_application, save_application] using
    find?_upsertById Application.id u s.applications

theorem get_work_item_save_self (s : Store) (u : WorkItem) :
    get_work_item (save_work_item s u) u.id = some u := by
  simpa [get_work_item, save_work_item] using
    find?_upsertById WorkItem.id u s.work_items

theorem id_of_get_application (s : Store) (id : String) (a : Application)
    (h : get_application s id = some a) : a.id = id :=
  key_of_find? Application.id id s.applications a h

theorem id_of_get_work_item (s : Store) (id : String) (w : WorkItem)
    (h : get_work_item s id = some w) : w.id = id :=
  key_of_find? WorkItem.id id s.work_items w h

/-! ### Transition case lemmas -/

theorem transition_not_found (store : Store) (application_id : String)
    (target : ApplicationStatus) (now : Nat)
    (h : get_application store application_id = none) :
    transition store application_id target now =
      (Except.error (TrackerError.applicationNotFound application_id), store) := by
  simp [transition, h]

theorem transition_invalid (store : Store) (application_id : String)
    (target : ApplicationStatus) (now : Nat) (app : Application)
    (happ : get_application store application_id = some app)
    (hcan : can_transition app.status target = false) :
    transition store application_id target now =
      (Except.error (TrackerError.invalidTransition
        ⟨app.status, target, some application_id⟩), store) := by
  simp [transition, happ, hcan]

theorem transition_ok (store : Store) (application_id : String)
    (target : ApplicationStatus) (now : Nat) (app : Application)
    (happ : get_application store application_id = some app)
    (hcan : can_transition app.status target = true) :
    transition store application_id target now =
      (Except.ok { app with status := target, updated_at := now },
       save_application store { app with status := target, updated_at := now }) := by
  simp [transition, happ, hcan]

theorem transition_error_store_unchanged (store : Store) (application_id : String)
    (target : ApplicationStatus) (now : Nat) (e : TrackerError) (s2 : Store)
    (h : transition store application_id target now = (Except.error e, s2)) :
    s2 = store := by
  cases happ : get_application store application_id with
  | none =>
    rw [transition_not_found store application_id target now happ] at h
    exact (congrArg Prod.snd h).symm
  | some app =>
    cases hcan : can_transition app.status target with
    | false =>
      rw [transition_invalid store application_id target now app happ hcan] at h
      exact (congrArg Prod.snd h).symm
    | true =>
      rw [transition_ok store application_id target now app happ hcan] at h
      simp at h

/-! ### Graph facts (claims C7, C8, C9) -/

/-- Claim C7: for every `ApplicationStatus` X, `can_transition X X` is
false — the transition table of `state_machine.py` contains no self-loop
for any of the 18 statuses. -/
theorem can_transition_no_self_loops :
    ∀ X : ApplicationStatus, can_transition X X = false := by decide

/-- Claim C8: the terminal statuses ACCEPTED, REJECTED and PASSED admit no
outgoing transition at all, and GHOSTED has exactly one outgoing edge, to
RESPONSE_RECEIVED. -/
theorem can_transition_terminal_and_ghosted :
    (∀ X : ApplicationStatus, can_transition ApplicationStatus.ACCEPTED X = false) ∧
    (∀ X : ApplicationStatus, can_transition ApplicationStatus.REJECTED X = false) ∧
    (∀ X : ApplicationStatus, can_transition ApplicationStatus.PASSED X = false) ∧
    (∀ X : ApplicationStatus, can_transition ApplicationStatus.GHOSTED X =
      decide (X = ApplicationStatus.RESPONSE_RECEIVED)) := by decide

/-- Claim C9: each pending-staging status has its two-step path coexisting
with the direct one-step edge for the same logical action, and every
pending-staging status has a reverse edge back to each status it staged
from (each X with an edge into the pending status). -/
theorem pending_staging_edges :
    (can_transition ApplicationStatus.SCORED ApplicationStatus.OUTREACH_PENDING = true ∧
     can_transition ApplicationStatus.OUTREACH_PENDING ApplicationStatus.OUTREACH_SENT = true ∧
     can_transition ApplicationStatus.SCORED ApplicationStatus.OUTREACH_SENT = true) ∧
    (can_transition ApplicationStatus.OUTREACH_SENT ApplicationStatus.FOLLOW_UP_PENDING = true ∧
     can_transition ApplicationStatus.FOLLOW_UP_PENDING ApplicationStatus.FOLLOW_UP_1 = true ∧
     can_transition ApplicationStatus.OUTREACH_SENT ApplicationStatus.FOLLOW_UP_1 = true ∧
     can_transition ApplicationStatus.FOLLOW_UP_1 ApplicationStatus.FOLLOW_UP_PENDING = true ∧
     can_transition ApplicationStatus.FOLLOW_UP_PENDING ApplicationStatus.FOLLOW_UP_2 = true ∧
     can_transition ApplicationStatus.FOLLOW_UP_1 ApplicationStatus.FOLLOW_UP_2 = true) ∧
    (can_transition ApplicationStatus.OFFER_RECEIVED ApplicationStatus.NEGOTIATION_PENDING = true ∧
     can_transition ApplicationStatus.NEGOTIATION_PENDING ApplicationStatus.NEGOTIATING = true ∧
     can_transition ApplicationStatus.OFFER_RECEIVED ApplicationStatus.NEGOTIATING = true) ∧
    (can_transition ApplicationStatus.OFFER_RECEIVED ApplicationStatus.ACCEPTANCE_PENDING = true ∧
     can_transition ApplicationStatus.ACCEPTANCE_PENDING ApplicationStatus.ACCEPTED = true ∧
     can_transition ApplicationStatus.OFFER_RECEIVED ApplicationStatus.ACCEPTED = true ∧
     can_transition ApplicationStatus.NEGOTIATING ApplicationStatus.ACCEPTANCE_PENDING = true ∧
     can_transition ApplicationStatus.NEGOTIATING ApplicationStatus.ACCEPTED = true) ∧
    (∀ P ∈ [ApplicationStatus.OUTREACH_PENDING, ApplicationStatus.FOLLOW_UP_PENDING,
            ApplicationStatus.NEGOTIATION_PENDING, ApplicationStatus.ACCEPTANCE_PENDING],
      ∀ X : ApplicationStatus,
        can_transition X P = true → can_transition P X = true) := by decide

/-- Witness for claim C9: the reverse-edge clause instantiated at the
OUTREACH_PENDING staging edge from SCORED. -/
theorem pending_staging_edges_witness :
    ApplicationStatus.OUTREACH_PENDING ∈
      [ApplicationStatus.OUTREACH_PENDING, ApplicationStatus.FOLLOW_UP_PENDING,
       ApplicationStatus.NEGOTIATION_PENDING, ApplicationStatus.ACCEPTANCE_PENDING] ∧
    can_transition ApplicationStatus.SCORED ApplicationStatus.OUTREACH_PENDING = true ∧
    can_transition ApplicationStatus.OUTREACH_PENDING ApplicationStatus.SCORED = true :=
  ⟨by decide, by decide,
    pending_staging_edges.2.2.2.2 ApplicationStatus.OUTREACH_PENDING (by decide)
      ApplicationStatus.SCORED (by decide)⟩

/-! ### Concrete fixtures used by the witnesses -/

def appAccepted : Application :=
  { id := "app-acc", opportunity_id := "opp-1",
    status := ApplicationStatus.ACCEPTED, created_at := 0, updated_at := 0 }

def appDiscovered : Application :=
  { id := "app-disc", opportunity_id := "opp-2",
    status := ApplicationStatus.DISCOVERED, created_at := 1, updated_at := 1 }

def appPendingOutreach : Application :=
  { id := "app-po", opportunity_id := "opp-3",
    status := ApplicationStatus.OUTREACH_PENDING, score := some 80,
    justification := some "fit", created_at := 2, updated_at := 2 }

def appPassed : Application :=
  { id := "app-pass", opportunity_id := "opp-4",
    status := ApplicationStatus.PASSED, created_at := 3, updated_at := 3 }

def wiPending : WorkItem :=
  { id := "wi-1", application_id := "app-po", work_type := WorkType.OUTREACH,
    status := WorkStatus.PENDING, title := "send outreach",
    instructions := "send it", draft_content := some "Hello!",
    target_status := "OUTREACH_SENT", previous_status := "SCORED",
    created_at := 2 }

def wiBadTarget : WorkItem :=
  { id := "wi-2", application_id := "app-po", work_type := WorkType.OUTREACH,
    status := WorkStatus.PENDING, title := "bad target",
    instructions := "edge missing", draft_content := some "Hi",
    target_status := "ACCEPTED", previous_status := "SCORED",
    created_at := 2 }

def wiDone : WorkItem :=
  { id := "wi-done", application_id := "app-po", work_type := WorkType.OUTREACH,
    status := WorkStatus.COMPLETED, title := "done already",
    instructions := "n/a", target_status := "OUTREACH_SENT",
    previous_status := "SCORED", created_at := 1, completed_at := some 2 }

def storeA : Store :=
  { applications := [appAccepted, appDiscovered, appPendingOutreach, appPassed],
    work_items := [wiPending, wiBadTarget, wiDone],
    interactions := [] }

/-! ### Claim C1 -/

/-- Claim C1: when `can_transition app.status target` is false, `transition`
fails with `InvalidTransition` carrying the current status, the target and
the application id, the store — hence the stored Application, status and
updated_at included — is completely unchanged, and the diagnostic's legal
target set is rendered sorted, with the empty set rendered as the distinct
terminal-state marker. -/
theorem transition_invalid_diagnostics_and_frame
    (store : Store) (application_id : String) (target : ApplicationStatus)
    (now : Nat) (app : Application)
    (happ : get_application store application_id = some app)
    (hcan : can_transition app.status target = false) :
    transition store application_id target now =
      (Except.error (TrackerError.invalidTransition
        ⟨app.status, target, some application_id⟩), store) ∧
    (VALID_TRANSITIONS app.status = [] →
      valid_str app.status = "none (terminal state)") ∧
    (VALID_TRANSITIONS app.status ≠ [] → ∃ l : List String,
      l.Sorted (fun a b => a ≤ b) ∧
      l.Perm ((VALID_TRANSITIONS app.status).map ApplicationStatus.value) ∧
      valid_str app.status = String.intercalate ", " l) := by
  refine ⟨transition_invalid store application_id target now app happ hcan, ?_, ?_⟩
  · intro h
    simp [valid_str, h]
  · intro h
    have hne : (VALID_TRANSITIONS app.status).isEmpty = false := by
      cases hv : VALID_TRANSITIONS app.status with
      | nil => exact absurd hv h
      | cons x xs => rfl
    refine ⟨List.insertionSort (fun a b => a ≤ b)
        ((VALID_TRANSITIONS app.status).map ApplicationStatus.value),
      List.sorted_insertionSort _ _, List.perm_insertionSort _ _, ?_⟩
    simp [valid_str, hne]

/-- Witness for claim C1: an ACCEPTED (terminal) application rejects a
transition to SCORED, the store is returned unchanged, and the terminal
marker is rendered. -/
theorem transition_invalid_diagnostics_and_frame_witness :
    get_application storeA "app-acc" = some appAccepted ∧
    can_transition appAccepted.status ApplicationStatus.SCORED = false ∧
    transition storeA "app-acc" ApplicationStatus.SCORED 5 =
      (Except.error (TrackerError.invalidTransition
        ⟨ApplicationStatus.ACCEPTED, ApplicationStatus.SCORED, some "app-acc"⟩),
       storeA) ∧
    valid_str ApplicationStatus.ACCEPTED = "none (terminal state)" :=
  ⟨by decide, by decide,
   (transition_invalid_diagnostics_and_frame storeA "app-acc"
     ApplicationStatus.SCORED 5 appAccepted (by decide) (by decide)).1,
   (transition_invalid_diagnostics_and_frame storeA "app-acc"
     ApplicationStatus.SCORED 5 appAccepted (by decide) (by decide)).2.1 rfl⟩

/-! ### Claim C10 -/

/-- Claim C10: on every successful transition only status and updated_at
change — id, opportunity_id, score, justification, day_to_day, why_it_fits
and created_at are persisted exactly as read — and the other two tables are
untouched. -/
theorem transition_success_frame
    (store : Store) (application_id : String) (target : ApplicationStatus)
    (now : Nat) (app : Application)
    (happ : get_application store application_id = some app)
    (hcan : can_transition app.status target = true) :
    ∃ u store2,
      transition store application_id target now = (Except.ok u, store2) ∧
      u.status = target ∧ u.updated_at = now ∧
      u.id = app.id ∧ u.opportunity_id = app.opportunity_id ∧
      u.score = app.score ∧ u.justification = app.justification ∧
      u.day_to_day = app.day_to_day ∧ u.why_it_fits = app.why_it_fits ∧
      u.created_at = app.created_at ∧
      get_application store2 application_id = some u ∧
      store2.work_items = store.work_items ∧
      store2.interactions = store.interactions := by
  have hid : app.id = application_id :=
    id_of_get_application store application_id app happ
  refine ⟨{ app with status := target, updated_at := now },
    save_application store { app with status := target, updated_at := now },
    transition_ok store application_id target now app happ hcan,
    rfl, rfl, rfl, rfl, rfl, rfl, rfl, rfl, rfl, ?_, rfl, rfl⟩
  have hsaved := get_application_save_self store
    { app with status := target, updated_at := now }
  simpa [hid] using hsaved

/-- Witness for claim C10: DISCOVERED → SCORED on a concrete store. -/
theorem transition_success_frame_witness :
    get_application storeA "app-disc" = some appDiscovered ∧
    can_transition appDiscovered.status ApplicationStatus.SCORED = true ∧
    (∃ u store2,
      transition storeA "app-disc" ApplicationStatus.SCORED 9 = (Except.ok u, store2) ∧
      u.status = ApplicationStatus.SCORED ∧ u.updated_at = 9 ∧
      u.id = appDiscovered.id ∧ u.opportunity_id = appDiscovered.opportunity_id ∧
      u.score = appDiscovered.score ∧ u.justification = appDiscovered.justification ∧
      u.day_to_day = appDiscovered.day_to_day ∧ u.why_it_fits = appDiscovered.why_it_fits ∧
      u.created_at = appDiscovered.created_at ∧
      get_application store2 "app-disc" = some u ∧
      store2.work_items = storeA.work_items ∧
      store2.interactions = storeA.interactions) :=
  ⟨by decide, by decide,
   transition_success_frame storeA "app-disc" ApplicationStatus.SCORED 9
     appDiscovered (by decide) (by decide)⟩

/-! ### Claim C6 -/

/-- Claim C6: `transition` fails with the not-found error when the
application id does not resolve; `complete_work_item` and `skip_work_item`
fail with the not-found error when the work-item id does not resolve and
with the already-resolved error when the item is no longer PENDING (the
store, hence the application's status, is unchanged in each case); and the
three error kinds NotFound / InvalidTransition / AlreadyResolved are
pairwise distinct values of the error type handed to the caller. -/
theorem error_taxonomy :
    (∀ (store : Store) (application_id : String) (target : ApplicationStatus) (now : Nat),
      get_application store application_id = none →
      transition store application_id target now =
        (Except.error (TrackerError.applicationNotFound application_id), store)) ∧
    (∀ (store : Store) (work_item_id newInteractionId : String) (nI nT nC : Nat),
      get_work_item store work_item_id = none →
      complete_work_item store work_item_id newInteractionId nI nT nC =
        (Except.error (TrackerError.workItemNotFound work_item_id), store)) ∧
    (∀ (store : Store) (work_item_id : String) (nT nC : Nat),
      get_work_item store work_item_id = none →
      skip_work_item store work_item_id nT nC =
        (Except.error (TrackerError.workItemNotFound work_item_id), store)) ∧
    (∀ (store : Store) (work_item_id newInteractionId : String) (nI nT nC : Nat)
        (item : WorkItem),
      get_work_item store work_item_id = some item →
      item.status ≠ WorkStatus.PENDING →
      complete_work_item store work_item_id newInteractionId nI nT nC =
        (Except.error (TrackerError.alreadyResolved work_item_id item.status), store)) ∧
    (∀ (store : Store) (work_item_id : String) (nT nC : Nat) (item : WorkItem),
      get_work_item store work_item_id = some item →
      item.status ≠ WorkStatus.PENDING →
      skip_work_item store work_item_id nT nC =
        (Except.error (TrackerError.alreadyResolved work_item_id item.status), store)) ∧
    (∀ (a w : String) (d : InvalidTransitionData) (s : WorkStatus),
      TrackerError.applicationNotFound a ≠ TrackerError.invalidTransition d ∧
      TrackerError.applicationNotFound a ≠ TrackerError.alreadyResolved w s ∧
      TrackerError.workItemNotFound w ≠ TrackerError.invalidTransition d ∧
      TrackerError.workItemNotFound a ≠ TrackerError.alreadyResolved w s ∧
      TrackerError.invalidTransition d ≠ TrackerError.alreadyResolved w s) := by
  refine ⟨?_, ?_, ?_, ?_, ?_, ?_⟩
  · intro store application_id target now h
    exact transition_not_found store application_id target now h
  · intro store work_item_id newInteractionId nI nT nC h
    simp [complete_work_item, h]
  · intro store work_item_id nT nC h
    simp [skip_work_item, h]
  · intro store work_item_id newInteractionId nI nT nC item h hstat
    simp [complete_work_item, h, hstat]
  · intro store work_item_id nT nC item h hstat
    simp [skip_work_item, h, hstat]
  · intro a w d s
    refine ⟨by simp, by simp, by simp, by simp, by simp⟩

/-- Witness for claim C6: a missing application id, and a second resolution
of an already-COMPLETED work item, on a concrete store. -/
theorem error_taxonomy_witness :
    get_application storeA "missing" = none ∧
    transition storeA "missing" ApplicationStatus.SCORED 3 =
      (Except.error (TrackerError.applicationNotFound "missing"), storeA) ∧
    get_work_item storeA "wi-done" = some wiDone ∧
    complete_work_item storeA "wi-done" "int-9" 1 2 3 =
      (Except.error (TrackerError.alreadyResolved "wi-done" WorkStatus.COMPLETED),
       storeA) ∧
    skip_work_item storeA "wi-done" 2 3 =
      (Except.error (TrackerError.alreadyResolved "wi-done" WorkStatus.COMPLETED),
       storeA) :=
  ⟨by decide,
   error_taxonomy.1 storeA "missing" ApplicationStatus.SCORED 3 (by decide),
   by decide,
   error_taxonomy.2.2.2.1 storeA "wi-done" "int-9" 1 2 3 wiDone (by decide) (by decide),
   error_taxonomy.2.2.2.2.1 storeA "wi-done" 2 3 wiDone (by decide) (by decide)⟩

/-! ### Claim C2 -/

/-- Claim C2: for a PENDING work item whose stored target_status parses and
is a legal transition from the application's current status,
`complete_work_item` persists exactly one Interaction (type FOLLOW_UP for
follow-up work, EMAIL_SENT otherwise; direction "outbound"; channel
"email"; content = draft_content), transitions the application to the
target, and persists the work item as COMPLETED with completed_at set. -/
theorem complete_work_item_success
    (store : Store) (work_item_id newInteractionId : String) (nI nT nC : Nat)
    (item : WorkItem) (target : ApplicationStatus) (app : Application)
    (hitem : get_work_item store work_item_id = some item)
    (hpend : item.status = WorkStatus.PENDING)
    (htarget : ApplicationStatus.ofValue item.target_status = some target)
    (happ : get_application store item.application_id = some app)
    (hcan : can_transition app.status target = true)
    (hfresh : ∀ i ∈ store.interactions, i.id ≠ newInteractionId) :
    ∃ store2,
      complete_work_item store work_item_id newInteractionId nI nT nC =
        (Except.ok { item with
          status := WorkStatus.COMPLETED, completed_at := some nC }, store2) ∧
      store2.interactions = store.interactions ++
        [{ id := newInteractionId, application_id := item.application_id,
           type := interaction_type_for item.work_type, direction := "outbound",
           channel := "email", content := item.draft_content, metadata := none,
           created_at := nI }] ∧
      (item.work_type = WorkType.FOLLOW_UP →
        interaction_type_for item.work_type = InteractionType.FOLLOW_UP) ∧
      (item.work_type ≠ WorkType.FOLLOW_UP →
        interaction_type_for item.work_type = InteractionType.EMAIL_SENT) ∧
      get_application store2 item.application_id =
        some { app with status := target, updated_at := nT } ∧
      get_work_item store2 work_item_id =
        some { item with
          status := WorkStatus.COMPLETED, completed_at := some nC } := by
  have hidw : item.id = work_item_id :=
    id_of_get_work_item store work_item_id item hitem
  have hida : app.id = item.application_id :=
    id_of_get_application store item.application_id app happ
  have happ1 : get_application (save_interaction store
      { id := newInteractionId, application_id := item.application_id,
        type := interaction_type_for item.work_type, direction := "outbound",
        channel := "email", content := item.draft_content, metadata := none,
        created_at := nI }) item.application_id = some app := happ
  refine ⟨save_work_item (save_application (save_interaction store
      { id := newInteractionId, application_id := item.application_id,
        type := interaction_type_for item.work_type, direction := "outbound",
        channel := "email", content := item.draft_content, metadata := none,
        created_at := nI })
      { app with status := target, updated_at := nT })
      { item with status := WorkStatus.COMPLETED, completed_at := some nC },
    ?_, ?_, ?_, ?_, ?_, ?_⟩
  · simp only [complete_work_item, hitem, hpend, htarget, ne_eq,
      not_true_eq_false, if_false]
    rw [transition_ok _ item.application_id target nT app happ1 hcan]
  · exact upsertById_of_fresh Interaction.id _ store.interactions
      (fun b hb => hfresh b hb)
  · intro h
    simp [interaction_type_for, h]
  · intro h
    simp [interaction_type_for, h]
  · rw [get_application_save_work_item, ← hida]
    exact get_application_save_self _ _
  · rw [← hidw]
    exact get_work_item_save_self _ _

/-- Witness for claim C2: completing the pending outreach item on the
concrete store advances the application to OUTREACH_SENT and records the
EMAIL_SENT interaction. -/
theorem complete_work_item_success_witness :
    get_work_item storeA "wi-1" = some wiPending ∧
    wiPending.status = WorkStatus.PENDING ∧
    ApplicationStatus.ofValue wiPending.target_status =
      some ApplicationStatus.OUTREACH_SENT ∧
    get_application storeA "app-po" = some appPendingOutreach ∧
    can_transition appPendingOutreach.status ApplicationStatus.OUTREACH_SENT = true ∧
    (∃ store2,
      complete_work_item storeA "wi-1" "int-1" 10 11 12 =
        (Except.ok { wiPending with
          status := WorkStatus.COMPLETED, completed_at := some 12 }, store2) ∧
      store2.interactions = storeA.interactions ++
        [{ id := "int-1", application_id := "app-po",
           type := InteractionType.EMAIL_SENT, direction := "outbound",
           channel := "email", content := some "Hello!", metadata := none,
           created_at := 10 }]) := by
  refine ⟨by decide, by decide, by decide, by decide, by decide, ?_⟩
  obtain ⟨store2, h1, h2, -⟩ :=
    complete_work_item_success storeA "wi-1" "int-1" 10 11 12 wiPending
      ApplicationStatus.OUTREACH_SENT appPendingOutreach
      (by decide) (by decide) (by decide) (by decide) (by decide) (by decide)
  exact ⟨store2, h1, h2⟩

/-! ### Claim C3 -/

/-- Claim C3: for a PENDING work item whose stored previous_status parses
and is a legal transition from the application's current status,
`skip_work_item` reverts the application to previous_status, persists the
work item as SKIPPED with completed_at set, and writes no Interaction at
all. -/
theorem skip_work_item_success
    (store : Store) (work_item_id : String) (nT nC : Nat)
    (item : WorkItem) (previous : ApplicationStatus) (app : Application)
    (hitem : get_work_item store work_item_id = some item)
    (hpend : item.status = WorkStatus.PENDING)
    (hprev : ApplicationStatus.ofValue item.previous_status = some previous)
    (happ : get_application store item.application_id = some app)
    (hcan : can_transition app.status previous = true) :
    ∃ store2,
      skip_work_item store work_item_id nT nC =
        (Except.ok { item with
          status := WorkStatus.SKIPPED, completed_at := some nC }, store2) ∧
      store2.interactions = store.interactions ∧
      get_application store2 item.application_id =
        some { app with status := previous, updated_at := nT } ∧
      get_work_item store2 work_item_id =
        some { item with
          status := WorkStatus.SKIPPED, completed_at := some nC } := by
  have hidw : item.id = work_item_id :=
    id_of_get_work_item store work_item_id item hitem
  have hida : app.id = item.application_id :=
    id_of_get_application store item.application_id app happ
  refine ⟨save_work_item
      (save_application store { app with status := previous, updated_at := nT })
      { item with status := WorkStatus.SKIPPED, completed_at := some nC },
    ?_, rfl, ?_, ?_⟩
  · simp only [skip_work_item, hitem, hpend, hprev, ne_eq,
      not_true_eq_false, if_false]
    rw [transition_ok store item.application_id previous nT app happ hcan]
  · rw [get_application_save_work_item, ← hida]
    exact get_application_save_self _ _
  · rw [← hidw]
    exact get_work_item_save_self _ _

/-- Witness for claim C3: skipping the pending outreach item on the
concrete store reverts the application to SCORED, marks the item SKIPPED
and leaves the interactions table empty. -/
theorem skip_work_item_success_witness :
    get_work_item storeA "wi-1" = some wiPending ∧
    ApplicationStatus.ofValue wiPending.previous_status =
      some ApplicationStatus.SCORED ∧
    can_transition appPendingOutreach.status ApplicationStatus.SCORED = true ∧
    (∃ store2,
      skip_work_item storeA "wi-1" 21 22 =
        (Except.ok { wiPending with
          status := WorkStatus.SKIPPED, completed_at := some 22 }, store2) ∧
      store2.interactions = storeA.interactions) := by
  refine ⟨by decide, by decide, by decide, ?_⟩
  obtain ⟨store2, h1, h2, -⟩ :=
    skip_work_item_success storeA "wi-1" 21 22 wiPending
      ApplicationStatus.SCORED appPendingOutreach
      (by decide) (by decide) (by decide) (by decide) (by decide)
  exact ⟨store2, h1, h2⟩

/-! ### Claim C4 -/

/-- Claim C4: if the initial transition to pending_status fails,
`create_work_item` performs no write at all — the returned store is the
input store, so no WorkItem row exists and the application is unchanged;
on success it persists a WorkItem with status PENDING whose target_status
and previous_status are the caller-provided values verbatim, with no
hypothesis relating them to the status graph (they are not validated at
creation time). -/
theorem create_work_item_spec :
    (∀ (store : Store) (application_id : String) (work_type : WorkType)
        (title instructions : String) (draft_content : Option String)
        (target_status previous_status pending_status : ApplicationStatus)
        (newId : String) (nowT nowC : Nat) (e : TrackerError) (store2 : Store),
      transition store application_id pending_status nowT = (Except.error e, store2) →
      create_work_item store application_id work_type title instructions
          draft_content target_status previous_status pending_status
          newId nowT nowC =
        (Except.error e, store)) ∧
    (∀ (store : Store) (application_id : String) (work_type : WorkType)
        (title instructions : String) (draft_content : Option String)
        (target_status previous_status pending_status : ApplicationStatus)
        (newId : String) (nowT nowC : Nat) (app2 : Application) (store1 : Store),
      transition store application_id pending_status nowT = (Except.ok app2, store1) →
      create_work_item store application_id work_type title instructions
          draft_content target_status previous_status pending_status
          newId nowT nowC =
        (Except.ok
          { id := newId, application_id := application_id,
            work_type := work_type, status := WorkStatus.PENDING,
            title := title, instructions := instructions,
            draft_content := draft_content,
            target_status := target_status.value,
            previous_status := previous_status.value,
            created_at := nowC, completed_at := none },
         save_work_item store1
          { id := newId, application_id := application_id,
            work_type := work_type, status := WorkStatus.PENDING,
            title := title, instructions := instructions,
            draft_content := draft_content,
            target_status := target_status.value,
            previous_status := previous_status.value,
            created_at := nowC, completed_at := none }) ∧
      get_work_item
          (save_work_item store1
            { id := newId, application_id := application_id,
              work_type := work_type, status := WorkStatus.PENDING,
              title := title, instructions := instructions,
              draft_content := draft_content,
              target_status := target_status.value,
              previous_status := previous_status.value,
              created_at := nowC, completed_at := none }) newId =
        some
          { id := newId, application_id := application_id,
            work_type := work_type, status := WorkStatus.PENDING,
            title := title, instructions := instructions,
            draft_content := draft_content,
            target_status := target_status.value,
            previous_status := previous_status.value,
            created_at := nowC, completed_at := none }) := by
  constructor
  · intro store application_id work_type title instructions draft_content
      target_status previous_status pending_status newId nowT nowC e store2 h
    have h2 : store2 = store :=
      transition_error_store_unchanged store application_id pending_status
        nowT e store2 h
    cases h2
    simp only [create_work_item, h]
  · intro store application_id work_type title instructions draft_content
      target_status previous_status pending_status newId nowT nowC app2 store1 h
    constructor
    · simp only [create_work_item, h]
    · exact get_work_item_save_self _ _

/-- Witness for claim C4: an application already in PASSED (terminal)
rejects the drive into OUTREACH_PENDING before any WorkItem write; a
DISCOVERED application accepts pending SCORED and the item stores the
caller's (graph-illegal) target ACCEPTED and previous GHOSTED verbatim. -/
theorem create_work_item_spec_witness :
    create_work_item storeA "app-pass" WorkType.OUTREACH "t" "i" none
        ApplicationStatus.OUTREACH_SENT ApplicationStatus.SCORED
        ApplicationStatus.OUTREACH_PENDING "wi-new" 30 31 =
      (Except.error (TrackerError.invalidTransition
        ⟨ApplicationStatus.PASSED, ApplicationStatus.OUTREACH_PENDING,
         some "app-pass"⟩), storeA) ∧
    (create_work_item storeA "app-disc" WorkType.OUTREACH "t" "i" (some "d")
        ApplicationStatus.ACCEPTED ApplicationStatus.GHOSTED
        ApplicationStatus.SCORED "wi-new" 40 41).1 =
      Except.ok
        { id := "wi-new", application_id := "app-disc",
          work_type := WorkType.OUTREACH, status := WorkStatus.PENDING,
          title := "t", instructions := "i", draft_content := some "d",
          target_status := "ACCEPTED", previous_status := "GHOSTED",
          created_at := 41, completed_at := none } :=
  ⟨create_work_item_spec.1 storeA "app-pass" WorkType.OUTREACH "t" "i" none
      ApplicationStatus.OUTREACH_SENT ApplicationStatus.SCORED
      ApplicationStatus.OUTREACH_PENDING "wi-new" 30 31
      (TrackerError.invalidTransition
        ⟨ApplicationStatus.PASSED, ApplicationStatus.OUTREACH_PENDING,
         some "app-pass"⟩) storeA (by rfl),
   congrArg Prod.fst
     ((create_work_item_spec.2 storeA "app-disc" WorkType.OUTREACH "t" "i"
        (some "d") ApplicationStatus.ACCEPTED ApplicationStatus.GHOSTED
        ApplicationStatus.SCORED "wi-new" 40 41
        { appDiscovered with
          status := ApplicationStatus.SCORED, updated_at := 40 }
        (save_application storeA
          { appDiscovered with
            status := ApplicationStatus.SCORED, updated_at := 40 })
        (by rfl)).1)⟩

/-! ### Claim C5 -/

/-- Claim C5: for a PENDING work item whose stored target_status is a valid
status value but not a legal edge from the application's current status,
`complete_work_item` writes the Interaction first and then fails on the
transition: the Interaction stays persisted (not rolled back), the work
items and applications tables are untouched, and the item is still PENDING
in the store. -/
theorem complete_work_item_partial_failure
    (store : Store) (work_item_id newInteractionId : String) (nI nT nC : Nat)
    (item : WorkItem) (target : ApplicationStatus) (app : Application)
    (hitem : get_work_item store work_item_id = some item)
    (hpend : item.status = WorkStatus.PENDING)
    (htarget : ApplicationStatus.ofValue item.target_status = some target)
    (happ : get_application store item.application_id = some app)
    (hcan : can_transition app.status target = false)
    (hfresh : ∀ i ∈ store.interactions, i.id ≠ newInteractionId) :
    ∃ store2,
      complete_work_item store work_item_id newInteractionId nI nT nC =
        (Except.error (TrackerError.invalidTransition
          ⟨app.status, target, some item.application_id⟩), store2) ∧
      store2.interactions = store.interactions ++
        [{ id := newInteractionId, application_id := item.application_id,
           type := interaction_type_for item.work_type, direction := "outbound",
           channel := "email", content := item.draft_content, metadata := none,
           created_at := nI }] ∧
      store2.work_items = store.work_items ∧
      store2.applications = store.applications ∧
      get_work_item store2 work_item_id = some item ∧
      item.status = WorkStatus.PENDING := by
  have happ1 : get_application (save_interaction store
      { id := newInteractionId, application_id := item.application_id,
        type := interaction_type_for item.work_type, direction := "outbound",
        channel := "email", content := item.draft_content, metadata := none,
        created_at := nI }) item.application_id = some app := happ
  refine ⟨save_interaction store
      { id := newInteractionId, application_id := item.application_id,
        type := interaction_type_for item.work_type, direction := "outbound",
        channel := "email", content := item.draft_content, metadata := none,
        created_at := nI },
    ?_, ?_, rfl, rfl, hitem, hpend⟩
  · simp only [complete_work_item, hitem, hpend, htarget, ne_eq,
      not_true_eq_false, if_false]
    rw [transition_invalid _ item.application_id target nT app happ1 hcan]
  · exact upsertById_of_fresh Interaction.id _ store.interactions
      (fun b hb => hfresh b hb)

/-- Witness for claim C5: the wi-2 work item stores target "ACCEPTED",
a valid status value with no edge from OUTREACH_PENDING; completing it
leaves the interaction persisted and the item PENDING. -/
theorem complete_work_item_partial_failure_witness :
    get_work_item storeA "wi-2" = some wiBadTarget ∧
    ApplicationStatus.ofValue wiBadTarget.target_status =
      some ApplicationStatus.ACCEPTED ∧
    can_transition appPendingOutreach.status ApplicationStatus.ACCEPTED = false ∧
    (∃ store2,
      complete_work_item storeA "wi-2" "int-2" 50 51 52 =
        (Except.error (TrackerError.invalidTransition
          ⟨ApplicationStatus.OUTREACH_PENDING, ApplicationStatus.ACCEPTED,
           some "app-po"⟩), store2) ∧
      store2.interactions = storeA.interactions ++
        [{ id := "int-2", application_id := "app-po",
           type := InteractionType.EMAIL_SENT, direction := "outbound",
           channel := "email", content := some "Hi", metadata := none,
           created_at := 50 }] ∧
      store2.work_items = storeA.work_items ∧
      get_work_item store2 "wi-2" = some wiBadTarget) := by
  refine ⟨by decide, by decide, by decide, ?_⟩
  obtain ⟨store2, h1, h2, h3, -, h5, -⟩ :=
    complete_work_item_partial_failure storeA "wi-2" "int-2" 50 51 52
      wiBadTarget ApplicationStatus.ACCEPTED appPendingOutreach
      (by decide) (by decide) (by decide) (by decide) (by decide) (by decide)
  exact ⟨store2, h1, h2, h3, h5⟩
